import Mathlib

/-!
Shallow embedding of the Circus location-tagged content service
(src/service/main.go) and verification of its specification claims.

Modelling conventions:
* Backend stores (Google Cloud Storage, ElasticSearch, BigTable) are
  modelled by environment records that fix the outcome of each backend
  call made by the handler.  Each handler returns its HTTP-visible
  response together with the list of backend calls it performed, in
  order, so that claims about call ordering and absence of calls can be
  stated directly.
* `strconv.ParseFloat` (with its error discarded by `lat, _ := ...`) is
  abstracted by a parameter `pf : String → Option ℚ`: `pf s = some v`
  when the Go call yields the value `v` with no error, and `pf s = none`
  when the input is malformed, in which case the ignored-error Go call
  yields `0`.  Coordinates are modelled as rationals.
* `hasFilteredWord` is defined outside src/service/main.go (the spam
  filter is a pure predicate over the message against a configured
  denylist), so handlers are parameterised by an arbitrary predicate
  `hasFiltered : String → Bool`.
-/

namespace Circus

/-- Errors returned by backend clients (Go `error` values). -/
abbrev Err := String

/-- The bytes of the multipart image field. -/
abbrev ImageData := List Nat

/-- main.go line 24: default search radius. -/
def DISTANCE : String := "200km"

/-- main.go line 25: ElasticSearch index holding post documents. -/
def POST_INDEX : String := "post"

/-- main.go line 26: ElasticSearch type of post documents. -/
def POST_TYPE : String := "post"

/-- main.go line 29: GCS bucket for post images. -/
def BUCKET_NAME : String := "zhida-post-around-image"

/-- main.go line 30: the secondary (BigTable) store toggle, false in the
shipped source. -/
def ENABLE_BIGTABLE : Bool := false

/-- main.go lines 33-36. -/
structure Location where
  lat : ℚ
  lon : ℚ
  deriving DecidableEq

/-- main.go lines 38-43. -/
structure Post where
  user : String
  message : String
  location : Location
  url : String
  deriving DecidableEq

/-- The subset of storage.ObjectAttrs used by the code: the MediaLink
reference URL returned for the stored object (main.go line 109). -/
structure ObjectAttrs where
  mediaLink : String
  deriving DecidableEq

/-- Outcomes of the successive GCS backend calls made by saveToGCS
(main.go lines 272-306): client creation, bucket attributes check,
io.Copy into the object writer, writer Close, ACL set, object Attrs. -/
structure GCSEnv where
  clientErr : Option Err
  bucketAttrsErr : Option Err
  copyErr : Option Err
  closeErr : Option Err
  aclErr : Option Err
  objectAttrs : Except Err ObjectAttrs

/-- The stages of saveToGCS, in source order. -/
inductive GCSStep where
  | newClient
  | checkBucketAttrs
  | copyToObjectWriter
  | closeObjectWriter
  | setAclPublicRead
  | getObjectAttrs
  deriving DecidableEq

/-- The full stage sequence of a successful saveToGCS run.  Note the
absence of any bucket-creation stage: the code only reads the bucket
attributes (main.go line 282) and never creates the bucket. -/
def gcsCanonicalSteps : List GCSStep :=
  [GCSStep.newClient, GCSStep.checkBucketAttrs, GCSStep.copyToObjectWriter,
   GCSStep.closeObjectWriter, GCSStep.setAclPublicRead, GCSStep.getObjectAttrs]

/-- main.go lines 272-306.  Each stage is attempted in order; the first
failing stage aborts with its error.  The ACL stage models
`object.ACL().Set(ctx, storage.AllUsers, storage.RoleReader)`, i.e.
setting the object access policy to public-read.  The returned list
records the stages attempted, in order. -/
def saveToGCS (env : GCSEnv) (r : ImageData) (bucketName objectName : String) :
    Except Err ObjectAttrs × List GCSStep :=
  match env.clientErr with
  | some e => (Except.error e, [GCSStep.newClient])
  | none =>
    match env.bucketAttrsErr with
    | some e => (Except.error e, [GCSStep.newClient, GCSStep.checkBucketAttrs])
    | none =>
      match env.copyErr with
      | some e =>
          (Except.error e,
           [GCSStep.newClient, GCSStep.checkBucketAttrs, GCSStep.copyToObjectWriter])
      | none =>
        match env.closeErr with
        | some e =>
            (Except.error e,
             [GCSStep.newClient, GCSStep.checkBucketAttrs, GCSStep.copyToObjectWriter,
              GCSStep.closeObjectWriter])
        | none =>
          match env.aclErr with
          | some e =>
              (Except.error e,
               [GCSStep.newClient, GCSStep.checkBucketAttrs, GCSStep.copyToObjectWriter,
                GCSStep.closeObjectWriter, GCSStep.setAclPublicRead])
          | none =>
            match env.objectAttrs with
            | Except.error e => (Except.error e, gcsCanonicalSteps)
            | Except.ok attrs => (Except.ok attrs, gcsCanonicalSteps)

/-- Outcomes of the ElasticSearch calls made by saveToES (main.go lines
209-229): client creation, then the Index (document put) call. -/
structure ESSaveEnv where
  clientErr : Option Err
  indexErr : Option Err
  deriving DecidableEq

/-- main.go lines 209-229: create an ES client, then index the post
document under the given id (Refresh set to wait_for in the source). -/
def saveToES (env : ESSaveEnv) (post : Post) (id : String) : Except Err Unit :=
  match env.clientErr with
  | some e => Except.error e
  | none =>
    match env.indexErr with
    | some e => Except.error e
    | none => Except.ok ()

/-- Outcomes of the BigTable calls made by saveToBigTable (main.go lines
308-335): client creation and the Apply (mutation) call. -/
structure BTEnv where
  clientErr : Option Err
  applyErr : Option Err
  deriving DecidableEq

/-- Result of running saveToBigTable: either it returns normally or a
`panic(err)` escapes from it. -/
inductive BTOutcome where
  | ok
  | panicked (e : Err)
  deriving DecidableEq

/-- main.go lines 308-335.  On a client-creation error or an Apply error
the code executes `panic(err)` (the `return` after each panic is
unreachable), so the failure escapes as a panic instead of being logged
and swallowed. -/
def saveToBigTable (env : BTEnv) (p : Post) (id : String) : BTOutcome :=
  match env.clientErr with
  | some e => BTOutcome.panicked e
  | none =>
    match env.applyErr with
    | some e => BTOutcome.panicked e
    | none => BTOutcome.ok

/-- The form fields of one POST /post request (main.go lines 76-97).
`image = none` models `r.FormFile("image")` returning an error. -/
structure PostRequest where
  latStr : String
  lonStr : String
  message : String
  user : String
  image : Option ImageData
  deriving DecidableEq

/-- The per-request environment of handlePost: the identifier produced
by `uuid.New()` (main.go line 96) and the outcomes of the three backend
stores. -/
structure PostEnv where
  freshId : String
  gcs : GCSEnv
  es : ESSaveEnv
  bt : BTEnv

/-- Backend calls made by handlePost, at function-call granularity:
`callGCS bucket object` is an invocation of saveToGCS, `callES id post`
of saveToES, `callBT id post` of saveToBigTable. -/
inductive Event where
  | callGCS (bucket : String) (object : String)
  | callES (id : String) (post : Post)
  | callBT (id : String) (post : Post)
  deriving DecidableEq

/-- The HTTP-visible outcome of handlePost: 400 for spam or a missing
image, 500 for a GCS or ES failure, an empty 200 on success, or an
escaped panic (from saveToBigTable) that aborts the handler. -/
inductive PostResponse where
  | spamRejected
  | imageUnavailable
  | gcsFailure
  | esFailure
  | okEmpty
  | panicked (e : Err)
  deriving DecidableEq

/-- The Post value built at main.go lines 87-94 from the request fields
(lat and lon parsed at lines 76-77 with the parse error discarded, so a
malformed field yields 0), with its Url field as assigned at line 109
from the asset store reference. -/
def mkPost (pf : String → Option ℚ) (r : PostRequest) (url : String) : Post :=
  { user := r.user
    message := r.message
    location := { lat := (pf r.latStr).getD 0, lon := (pf r.lonStr).getD 0 }
    url := url }

/-- main.go lines 68-123 (handlePost), parameterised by the spam filter
predicate `hasFiltered` (hasFilteredWord), the float parser abstraction
`pf`, and the secondary-store toggle `enableBigtable` (ENABLE_BIGTABLE,
false in the shipped source).  Control flow follows the source: spam
filter (line 81) → image form file (line 97) → saveToGCS (line 103) →
Url assignment (line 109) → saveToES (line 111) → optional
saveToBigTable (lines 119-121), each failure returning immediately. -/
def handlePost (hasFiltered : String → Bool) (pf : String → Option ℚ)
    (enableBigtable : Bool) (env : PostEnv) (r : PostRequest) :
    PostResponse × List Event :=
  if hasFiltered r.message then
    (PostResponse.spamRejected, [])
  else
    match r.image with
    | none => (PostResponse.imageUnavailable, [])
    | some file =>
      match (saveToGCS env.gcs file BUCKET_NAME env.freshId).1 with
      | Except.error _ =>
          (PostResponse.gcsFailure, [Event.callGCS BUCKET_NAME env.freshId])
      | Except.ok attrs =>
        match saveToES env.es (mkPost pf r attrs.mediaLink) env.freshId with
        | Except.error _ =>
            (PostResponse.esFailure,
             [Event.callGCS BUCKET_NAME env.freshId,
              Event.callES env.freshId (mkPost pf r attrs.mediaLink)])
        | Except.ok _ =>
          if enableBigtable then
            match saveToBigTable env.bt (mkPost pf r attrs.mediaLink) env.freshId with
            | BTOutcome.panicked e =>
                (PostResponse.panicked e,
                 [Event.callGCS BUCKET_NAME env.freshId,
                  Event.callES env.freshId (mkPost pf r attrs.mediaLink),
                  Event.callBT env.freshId (mkPost pf r attrs.mediaLink)])
            | BTOutcome.ok =>
                (PostResponse.okEmpty,
                 [Event.callGCS BUCKET_NAME env.freshId,
                  Event.callES env.freshId (mkPost pf r attrs.mediaLink),
                  Event.callBT env.freshId (mkPost pf r attrs.mediaLink)])
          else
            (PostResponse.okEmpty,
             [Event.callGCS BUCKET_NAME env.freshId,
              Event.callES env.freshId (mkPost pf r attrs.mediaLink)])

/-- main.go lines 259-267: the treatment of one search hit.  A hit that
deserialises into the Post shape (`item.(Post)` succeeds, modelled as
`some p`) is kept exactly when the spam filter does not match its
message; a malformed hit (`none`) is dropped. -/
def keepHit (hasFiltered : String → Bool) (it : Option Post) : Option Post :=
  match it with
  | some p => if hasFiltered p.message then none else some p
  | none => none

/-- Outcomes of the ElasticSearch calls made by readFromES (main.go
lines 231-270): client creation, then the geo search.  A successful
search yields the list of hits, each already subjected to the
reflection-based decode into Post (`some p` decoded, `none`
malformed). -/
structure ESQueryEnv where
  clientErr : Option Err
  searchOutcome : Except Err (List (Option Post))

/-- The geo-distance query built at main.go lines 237-238:
`elastic.NewGeoDistanceQuery("location").Distance(ran).Lat(lat).Lon(lon)`. -/
structure GeoQuery where
  field : String
  distance : String
  lat : ℚ
  lon : ℚ
  deriving DecidableEq

/-- main.go lines 231-270 (readFromES).  Returns the result and the
geo query executed (none when the client could not be created, so no
query was run). -/
def readFromES (hasFiltered : String → Bool) (env : ESQueryEnv) (lat lon : ℚ)
    (ran : String) : Except Err (List Post) × Option GeoQuery :=
  match env.clientErr with
  | some e => (Except.error e, none)
  | none =>
    match env.searchOutcome with
    | Except.error e =>
        (Except.error e,
         some { field := "location", distance := ran, lat := lat, lon := lon })
    | Except.ok items =>
        (Except.ok (items.filterMap (keepHit hasFiltered)),
         some { field := "location", distance := ran, lat := lat, lon := lon })

/-- The query parameters of one GET /search request (main.go lines
131-136).  An absent parameter is the empty string (Go
`r.URL.Query().Get` returns "" when the key is missing). -/
structure SearchRequest where
  latStr : String
  lonStr : String
  range : String
  deriving DecidableEq

/-- The HTTP-visible outcome of handleSearch: a 200 with the post list,
or a 500 on a backend failure.  (json.Marshal of a []Post cannot fail
and is modelled as always succeeding.) -/
inductive SearchResponse where
  | ok (body : List Post)
  | backendFailure
  deriving DecidableEq

/-- main.go lines 133-136: the radius string passed to the backend.
The default DISTANCE is used when the range parameter is empty or
absent; otherwise the parameter with "km" appended. -/
def searchRange (val : String) : String :=
  if val = "" then DISTANCE else val ++ "km"

/-- main.go lines 125-156 (handleSearch). -/
def handleSearch (hasFiltered : String → Bool) (pf : String → Option ℚ)
    (env : ESQueryEnv) (r : SearchRequest) :
    SearchResponse × Option GeoQuery :=
  match readFromES hasFiltered env ((pf r.latStr).getD 0) ((pf r.lonStr).getD 0)
      (searchRange r.range) with
  | (Except.error _, q) => (SearchResponse.backendFailure, q)
  | (Except.ok posts, q) => (SearchResponse.ok posts, q)

/-- A concrete instance of the ParseFloat abstraction used in witnesses:
the restriction of strconv.ParseFloat to non-negative decimal integer
literals (on which ParseFloat returns exactly the integer value); every
other string is treated as unparsed. -/
def parseFloatDec (s : String) : Option ℚ :=
  if s.data ≠ [] ∧ s.data.all (fun c => c.isDigit) then
    some ((s.data.foldl (fun acc c => 10 * acc + (c.toNat - 48)) 0 : ℕ) : ℚ)
  else none

/-- A spam filter configuration that matches nothing (for witnesses). -/
def hwNone : String → Bool := fun _ => false

/-- A spam filter configuration whose denylist is the word "buynow"
(for witnesses). -/
def hwBuy : String → Bool := fun m => m == "buynow"

/-- Sample stored-object attributes for witnesses. -/
def attrs0 : ObjectAttrs := { mediaLink := "https://storage.example/obj" }

/-- A GCS environment in which every stage succeeds. -/
def gcsOk : GCSEnv :=
  { clientErr := none, bucketAttrsErr := none, copyErr := none,
    closeErr := none, aclErr := none, objectAttrs := Except.ok attrs0 }

/-- A GCS environment in which the bucket existence check fails. -/
def gcsNoBucket : GCSEnv :=
  { clientErr := none, bucketAttrsErr := some "bucket missing", copyErr := none,
    closeErr := none, aclErr := none, objectAttrs := Except.ok attrs0 }

/-- An ES save environment in which both calls succeed. -/
def esOk : ESSaveEnv := { clientErr := none, indexErr := none }

/-- A BigTable environment in which both calls succeed. -/
def btOk : BTEnv := { clientErr := none, applyErr := none }

/-- A BigTable environment in which the Apply mutation fails. -/
def btApplyFail : BTEnv := { clientErr := none, applyErr := some "bigtable apply unavailable" }

/-- A request environment in which every store succeeds. -/
def envOk : PostEnv := { freshId := "id-1", gcs := gcsOk, es := esOk, bt := btOk }

/-- A request environment in which the GCS bucket check fails. -/
def envNoBucket : PostEnv := { freshId := "id-1", gcs := gcsNoBucket, es := esOk, bt := btOk }

/-- A request environment in which only the BigTable mirror write fails. -/
def envBtFail : PostEnv := { freshId := "id-1", gcs := gcsOk, es := esOk, bt := btApplyFail }

/-- An ordinary ingestion request. -/
def reqHello : PostRequest :=
  { latStr := "37", lonStr := "7", message := "hello", user := "alice", image := some [1, 2, 3] }

/-- An ingestion request whose message is on the hwBuy denylist. -/
def reqSpamMsg : PostRequest :=
  { latStr := "1", lonStr := "2", message := "buynow", user := "alice", image := some [1] }

/-- An ingestion request with malformed lat and lon fields. -/
def reqBadNums : PostRequest :=
  { latStr := "abc", lonStr := "", message := "hello", user := "alice", image := some [1] }

/-- An ingestion request whose coordinates are far outside the legal
degree ranges. -/
def reqOutOfRange : PostRequest :=
  { latStr := "1000", lonStr := "200", message := "hello", user := "alice", image := some [1] }

/-- A stored post whose message is on the hwBuy denylist. -/
def spamPost : Post :=
  { user := "bob", message := "buynow", location := { lat := 1, lon := 2 }, url := "u" }

/-- A stored post whose message passes the hwBuy filter. -/
def okPost : Post :=
  { user := "alice", message := "hello", location := { lat := 3, lon := 4 }, url := "u" }

/-- A search environment returning one clean hit, one malformed hit and
one spam hit. -/
def esQmix : ESQueryEnv :=
  { clientErr := none, searchOutcome := Except.ok [some okPost, none, some spamPost] }

/-- A search environment in which every hit is malformed or spam. -/
def esQbad : ESQueryEnv :=
  { clientErr := none, searchOutcome := Except.ok [none, some spamPost] }

/-- Generic list fact: a filterMap over a function returning none
everywhere on the list is empty. -/
theorem filterMap_eq_nil_of_none {α β : Type} {f : α → Option β} :
    ∀ {l : List α}, (∀ a ∈ l, f a = none) → l.filterMap f = [] := by
  intro l
  induction l with
  | nil => intro h; rfl
  | cons x xs ih =>
    intro h
    have hx := h x (by simp)
    have hxs := ih (fun a ha => h a (by simp [ha]))
    simp [List.filterMap_cons, hx, hxs]

/-- Generic list fact: the two elements of a length-two take are members
of the list. -/
theorem take_two_mem {α : Type} {l : List α} {a b : α}
    (h : l.take 2 = [a, b]) : a ∈ l ∧ b ∈ l := by
  match l with
  | [] => simp at h
  | [x] => simp at h
  | x :: y :: t =>
    simp [List.take] at h
    obtain ⟨rfl, rfl⟩ := h
    simp

/-- Exhaustive description of handlePost: its control flow reaches
exactly one of the seven exits of the source function, and in each case
the response and the backend-call trace are as listed. -/
theorem handlePost_graph (hasFiltered : String → Bool) (pf : String → Option ℚ)
    (b : Bool) (env : PostEnv) (r : PostRequest) :
    (hasFiltered r.message = true ∧
       handlePost hasFiltered pf b env r = (PostResponse.spamRejected, [])) ∨
    (hasFiltered r.message = false ∧ r.image = none ∧
       handlePost hasFiltered pf b env r = (PostResponse.imageUnavailable, [])) ∨
    (∃ file e, hasFiltered r.message = false ∧ r.image = some file ∧
       (saveToGCS env.gcs file BUCKET_NAME env.freshId).1 = Except.error e ∧
       handlePost hasFiltered pf b env r =
         (PostResponse.gcsFailure, [Event.callGCS BUCKET_NAME env.freshId])) ∨
    (∃ file a, hasFiltered r.message = false ∧ r.image = some file ∧
       (saveToGCS env.gcs file BUCKET_NAME env.freshId).1 = Except.ok a ∧
       ((∃ e, saveToES env.es (mkPost pf r a.mediaLink) env.freshId = Except.error e ∧
           handlePost hasFiltered pf b env r =
             (PostResponse.esFailure,
              [Event.callGCS BUCKET_NAME env.freshId,
               Event.callES env.freshId (mkPost pf r a.mediaLink)])) ∨
        (saveToES env.es (mkPost pf r a.mediaLink) env.freshId = Except.ok () ∧
           ((b = false ∧
               handlePost hasFiltered pf b env r =
                 (PostResponse.okEmpty,
                  [Event.callGCS BUCKET_NAME env.freshId,
                   Event.callES env.freshId (mkPost pf r a.mediaLink)])) ∨
            (b = true ∧
               ((∃ e, saveToBigTable env.bt (mkPost pf r a.mediaLink) env.freshId =
                      BTOutcome.panicked e ∧
                    handlePost hasFiltered pf b env r =
                      (PostResponse.panicked e,
                       [Event.callGCS BUCKET_NAME env.freshId,
                        Event.callES env.freshId (mkPost pf r a.mediaLink),
                        Event.callBT env.freshId (mkPost pf r a.mediaLink)])) ∨
                (saveToBigTable env.bt (mkPost pf r a.mediaLink) env.freshId =
                     BTOutcome.ok ∧
                   handlePost hasFiltered pf b env r =
                     (PostResponse.okEmpty,
                      [Event.callGCS BUCKET_NAME env.freshId,
                       Event.callES env.freshId (mkPost pf r a.mediaLink),
                       Event.callBT env.freshId (mkPost pf r a.mediaLink)])))))))) := by
  cases hfw : hasFiltered r.message with
  | true => exact Or.inl ⟨rfl, by simp [handlePost, hfw]⟩
  | false =>
    cases hr : r.image with
    | none =>
      exact Or.inr (Or.inl ⟨rfl, rfl, by simp [handlePost, hfw, hr]⟩)
    | some file =>
      cases hg : (saveToGCS env.gcs file BUCKET_NAME env.freshId).1 with
      | error e =>
        refine Or.inr (Or.inr (Or.inl ⟨file, e, rfl, rfl, hg, ?_⟩))
        simp [handlePost, hfw, hr, hg]
      | ok a =>
        cases he : saveToES env.es (mkPost pf r a.mediaLink) env.freshId with
        | error e =>
          refine Or.inr (Or.inr (Or.inr ⟨file, a, rfl, rfl, hg, Or.inl ⟨e, he, ?_⟩⟩))
          simp [handlePost, hfw, hr, hg, he]
        | ok u =>
          cases u
          cases b with
          | false =>
            refine Or.inr (Or.inr (Or.inr
              ⟨file, a, rfl, rfl, hg, Or.inr ⟨he, Or.inl ⟨rfl, ?_⟩⟩⟩))
            simp [handlePost, hfw, hr, hg, he]
          | true =>
            cases hbt : saveToBigTable env.bt (mkPost pf r a.mediaLink) env.freshId with
            | panicked e =>
              refine Or.inr (Or.inr (Or.inr
                ⟨file, a, rfl, rfl, hg, Or.inr ⟨he, Or.inr ⟨rfl, Or.inl ⟨e, hbt, ?_⟩⟩⟩⟩))
              simp [handlePost, hfw, hr, hg, he, hbt]
            | ok =>
              refine Or.inr (Or.inr (Or.inr
                ⟨file, a, rfl, rfl, hg, Or.inr ⟨he, Or.inr ⟨rfl, Or.inr ⟨hbt, ?_⟩⟩⟩⟩))
              simp [handlePost, hfw, hr, hg, he, hbt]

/-- Every backend call recorded by handlePost is a saveToGCS call on the
configured bucket under the fresh identifier, or (after a successful
asset write) a saveToES or saveToBigTable call on the Post whose url is
the returned asset reference. -/
theorem trace_event_shapes (hasFiltered : String → Bool) (pf : String → Option ℚ)
    (b : Bool) (env : PostEnv) (r : PostRequest) :
    ∀ ev ∈ (handlePost hasFiltered pf b env r).2,
      ev = Event.callGCS BUCKET_NAME env.freshId ∨
      ∃ file a, r.image = some file ∧
        (saveToGCS env.gcs file BUCKET_NAME env.freshId).1 = Except.ok a ∧
        (ev = Event.callES env.freshId (mkPost pf r a.mediaLink) ∨
         ev = Event.callBT env.freshId (mkPost pf r a.mediaLink)) := by
  intro ev hev
  rcases handlePost_graph hasFiltered pf b env r with
    ⟨h1, hres⟩ |
    ⟨h1, h2, hres⟩ |
    ⟨file, e, h1, h2, hg, hres⟩ |
    ⟨file, a, h1, h2, hg, ⟨e, he, hres⟩ |
      ⟨he, ⟨hb, hres⟩ | ⟨hb, ⟨e, hbt, hres⟩ | ⟨hbt, hres⟩⟩⟩⟩
  · rw [hres] at hev; simp at hev
  · rw [hres] at hev; simp at hev
  · rw [hres] at hev; simp at hev
    exact Or.inl hev
  · rw [hres] at hev; simp at hev
    rcases hev with hev | hev
    · exact Or.inl hev
    · exact Or.inr ⟨file, a, h2, hg, Or.inl hev⟩
  · rw [hres] at hev; simp at hev
    rcases hev with hev | hev
    · exact Or.inl hev
    · exact Or.inr ⟨file, a, h2, hg, Or.inl hev⟩
  · rw [hres] at hev; simp at hev
    rcases hev with hev | hev | hev
    · exact Or.inl hev
    · exact Or.inr ⟨file, a, h2, hg, Or.inl hev⟩
    · exact Or.inr ⟨file, a, h2, hg, Or.inr hev⟩
  · rw [hres] at hev; simp at hev
    rcases hev with hev | hev | hev
    · exact Or.inl hev
    · exact Or.inr ⟨file, a, h2, hg, Or.inl hev⟩
    · exact Or.inr ⟨file, a, h2, hg, Or.inr hev⟩

/-- If handlePost recorded a saveToES call, that call used the fresh
identifier and the Post produced from a successful asset write, and it
immediately followed the saveToGCS call (positions 0 and 1 of the
trace). -/
theorem callES_mem_structure (hasFiltered : String → Bool) (pf : String → Option ℚ)
    (b : Bool) (env : PostEnv) (r : PostRequest) (id : String) (p : Post)
    (h : Event.callES id p ∈ (handlePost hasFiltered pf b env r).2) :
    id = env.freshId ∧
    (∃ file a, r.image = some file ∧
        (saveToGCS env.gcs file BUCKET_NAME env.freshId).1 = Except.ok a ∧
        p = mkPost pf r a.mediaLink) ∧
    (handlePost hasFiltered pf b env r).2.take 2 =
      [Event.callGCS BUCKET_NAME env.freshId, Event.callES env.freshId p] := by
  rcases handlePost_graph hasFiltered pf b env r with
    ⟨h1, hres⟩ |
    ⟨h1, h2, hres⟩ |
    ⟨file, e, h1, h2, hg, hres⟩ |
    ⟨file, a, h1, h2, hg, ⟨e, he, hres⟩ |
      ⟨he, ⟨hb, hres⟩ | ⟨hb, ⟨e, hbt, hres⟩ | ⟨hbt, hres⟩⟩⟩⟩
  · rw [hres] at h; simp at h
  · rw [hres] at h; simp at h
  · rw [hres] at h; simp at h
  · rw [hres] at h; simp at h
    obtain ⟨hid, hp⟩ := h
    subst hid; subst hp
    exact ⟨rfl, ⟨file, a, h2, hg, rfl⟩, by rw [hres]; rfl⟩
  · rw [hres] at h; simp at h
    obtain ⟨hid, hp⟩ := h
    subst hid; subst hp
    exact ⟨rfl, ⟨file, a, h2, hg, rfl⟩, by rw [hres]; rfl⟩
  · rw [hres] at h; simp at h
    obtain ⟨hid, hp⟩ := h
    subst hid; subst hp
    exact ⟨rfl, ⟨file, a, h2, hg, rfl⟩, by rw [hres]; rfl⟩
  · rw [hres] at h; simp at h
    obtain ⟨hid, hp⟩ := h
    subst hid; subst hp
    exact ⟨rfl, ⟨file, a, h2, hg, rfl⟩, by rw [hres]; rfl⟩

/-- handlePost is determined by the message, image and parsed fields of
the request: two requests agreeing on those behave identically. -/
theorem handlePost_congr (hasFiltered : String → Bool) (pf : String → Option ℚ)
    (b : Bool) (env : PostEnv) (r1 r2 : PostRequest)
    (hm : r1.message = r2.message) (hi : r1.image = r2.image)
    (hp : ∀ url, mkPost pf r1 url = mkPost pf r2 url) :
    handlePost hasFiltered pf b env r1 = handlePost hasFiltered pf b env r2 := by
  simp only [handlePost, hm, hi, hp]

/-- Characterisation of the per-hit treatment in readFromES: a hit is
kept exactly when it deserialises into a Post whose message the spam
filter does not match. -/
theorem keepHit_eq_some (hasFiltered : String → Bool) (it : Option Post) (p : Post) :
    keepHit hasFiltered it = some p ↔ it = some p ∧ hasFiltered p.message = false := by
  cases it with
  | none => simp [keepHit]
  | some q =>
    cases hq : hasFiltered q.message with
    | true =>
      simp only [keepHit, hq, if_true, Option.some.injEq]
      constructor
      · intro h
        exact absurd h (by simp)
      · rintro ⟨rfl, hf⟩
        rw [hq] at hf
        exact absurd hf (by simp)
    | false =>
      simp only [keepHit, hq, Option.some.injEq]
      constructor
      · intro h
        simp at h
        subst h
        exact ⟨rfl, hq⟩
      · rintro ⟨rfl, -⟩
        simp

/-- Membership in the filtered hit list of readFromES. -/
theorem mem_filterMap_keepHit (hasFiltered : String → Bool)
    (items : List (Option Post)) (p : Post) :
    p ∈ items.filterMap (keepHit hasFiltered) ↔
      (some p ∈ items ∧ hasFiltered p.message = false) := by
  rw [List.mem_filterMap]
  constructor
  · rintro ⟨it, hit, hkeep⟩
    obtain ⟨rfl, hf⟩ := (keepHit_eq_some hasFiltered it p).1 hkeep
    exact ⟨hit, hf⟩
  · rintro ⟨hit, hf⟩
    exact ⟨some p, hit, (keepHit_eq_some hasFiltered (some p) p).2 ⟨rfl, hf⟩⟩

/-- The stages attempted by saveToGCS always form a prefix of the
canonical stage sequence: no stage is reordered, repeated or added. -/
theorem saveToGCS_steps_ordered (env : GCSEnv) (file : ImageData)
    (bucketName objectName : String) :
    ∃ t, (saveToGCS env file bucketName objectName).2 ++ t = gcsCanonicalSteps := by
  rcases env with ⟨c, bk, cp, cl, ac, oa⟩
  rcases c with _ | e <;> rcases bk with _ | e1 <;> rcases cp with _ | e2 <;>
    rcases cl with _ | e3 <;> rcases ac with _ | e4 <;> rcases oa with e5 | a0 <;>
    exact ⟨_, rfl⟩

/-- A successful saveToGCS run performed every stage, in order, and
returned exactly the attributes of the stored object. -/
theorem saveToGCS_ok_all_stages (env : GCSEnv) (file : ImageData)
    (bucketName objectName : String) (a : ObjectAttrs)
    (h : (saveToGCS env file bucketName objectName).1 = Except.ok a) :
    (saveToGCS env file bucketName objectName).2 = gcsCanonicalSteps ∧
    env.clientErr = none ∧ env.bucketAttrsErr = none ∧ env.copyErr = none ∧
    env.closeErr = none ∧ env.aclErr = none ∧ env.objectAttrs = Except.ok a := by
  rcases env with ⟨c, bk, cp, cl, ac, oa⟩
  rcases c with _ | e <;> rcases bk with _ | e1 <;> rcases cp with _ | e2 <;>
    rcases cl with _ | e3 <;> rcases ac with _ | e4 <;> rcases oa with e5 | a0 <;>
    simp_all [saveToGCS, gcsCanonicalSteps]

/-- A missing bucket fails saveToGCS right after the existence check:
only the client and the check ran, and neither a write nor a bucket
creation was attempted. -/
theorem saveToGCS_missing_bucket (env : GCSEnv) (file : ImageData)
    (bucketName objectName : String) (e : Err)
    (hc : env.clientErr = none) (hb : env.bucketAttrsErr = some e) :
    (saveToGCS env file bucketName objectName).1 = Except.error e ∧
    (saveToGCS env file bucketName objectName).2 =
      [GCSStep.newClient, GCSStep.checkBucketAttrs] := by
  simp [saveToGCS, hc, hb]

/-- Claim C1: an ingestion request whose message matches the spam
filter is rejected with the spam client error before any call to
saveToGCS, saveToES or saveToBigTable is made: the response is the
spam rejection and the backend-call trace is empty, so no store state
changes for a rejected post. -/
theorem spam_rejected_before_any_store_call (hasFiltered : String → Bool)
    (pf : String → Option ℚ) (b : Bool) (env : PostEnv) (r : PostRequest)
    (h : hasFiltered r.message = true) :
    handlePost hasFiltered pf b env r = (PostResponse.spamRejected, []) := by
  simp [handlePost, h]

/-- Witness for C1: a concrete spam request is rejected with an empty
backend-call trace. -/
theorem spam_rejected_before_any_store_call_witness :
    handlePost hwBuy parseFloatDec false envOk reqSpamMsg =
      (PostResponse.spamRejected, []) :=
  spam_rejected_before_any_store_call hwBuy parseFloatDec false envOk reqSpamMsg
    (by decide)

/-- Claim C2: the index write is attempted only after the asset write
succeeded and the post url has been set from the returned asset
reference.  If saveToGCS fails, handlePost returns the asset failure
with only the saveToGCS call in its trace (no index write); and any
saveToES call in the trace is on a post whose url is the mediaLink of a
successful saveToGCS result, placed immediately after that saveToGCS
call. -/
theorem asset_write_precedes_index_write (hasFiltered : String → Bool)
    (pf : String → Option ℚ) (b : Bool) (env : PostEnv) (r : PostRequest) :
    (∀ file e, hasFiltered r.message = false → r.image = some file →
        (saveToGCS env.gcs file BUCKET_NAME env.freshId).1 = Except.error e →
        handlePost hasFiltered pf b env r =
          (PostResponse.gcsFailure, [Event.callGCS BUCKET_NAME env.freshId])) ∧
    (∀ id p, Event.callES id p ∈ (handlePost hasFiltered pf b env r).2 →
        id = env.freshId ∧
        (∃ file a, r.image = some file ∧
            (saveToGCS env.gcs file BUCKET_NAME env.freshId).1 = Except.ok a ∧
            p.url = a.mediaLink) ∧
        (handlePost hasFiltered pf b env r).2.take 2 =
          [Event.callGCS BUCKET_NAME env.freshId, Event.callES env.freshId p]) := by
  constructor
  · intro file e hfw hi hg
    simp [handlePost, hfw, hi, hg]
  · intro id p h
    obtain ⟨hid, ⟨file, a, hi, hg, hp⟩, htake⟩ :=
      callES_mem_structure hasFiltered pf b env r id p h
    refine ⟨hid, ⟨file, a, hi, hg, ?_⟩, htake⟩
    subst hp
    rfl

/-- Witness for C2: with a failing bucket check, a concrete request is
answered with the asset failure and no index write appears in the
trace. -/
theorem asset_write_precedes_index_write_witness :
    handlePost hwNone parseFloatDec false envNoBucket reqHello =
      (PostResponse.gcsFailure, [Event.callGCS BUCKET_NAME envNoBucket.freshId]) :=
  (asset_write_precedes_index_write hwNone parseFloatDec false envNoBucket reqHello).1
    [1, 2, 3] "bucket missing" rfl rfl rfl

/-- Claim C3: lat and lon are parsed tolerantly.  When both fields are
malformed (the parse yields no value), the indexed post carries
location (0, 0), and the whole request behaves exactly as if the caller
had sent fields parsing to 0 — in particular it is not rejected for
malformed numeric input. -/
theorem tolerant_float_parsing (hasFiltered : String → Bool)
    (pf : String → Option ℚ) (b : Bool) (env : PostEnv) (r : PostRequest)
    (hlat : pf r.latStr = none) (hlon : pf r.lonStr = none) :
    (∀ id p, Event.callES id p ∈ (handlePost hasFiltered pf b env r).2 →
        p.location = { lat := 0, lon := 0 }) ∧
    (∀ z1 z2, pf z1 = some 0 → pf z2 = some 0 →
        handlePost hasFiltered pf b env r =
          handlePost hasFiltered pf b env { r with latStr := z1, lonStr := z2 }) := by
  constructor
  · intro id p h
    obtain ⟨-, ⟨file, a, -, -, hp⟩, -⟩ :=
      callES_mem_structure hasFiltered pf b env r id p h
    subst hp
    simp [mkPost, hlat, hlon]
  · intro z1 z2 hz1 hz2
    apply handlePost_congr
    · rfl
    · rfl
    · intro url
      simp [mkPost, hlat, hlon, hz1, hz2]

/-- Witness for C3: a request with lat "abc" and lon "" is processed
exactly like the same request with lat "0" and lon "0". -/
theorem tolerant_float_parsing_witness :
    handlePost hwNone parseFloatDec false envOk reqBadNums =
      handlePost hwNone parseFloatDec false envOk
        { reqBadNums with latStr := "0", lonStr := "0" } :=
  (tolerant_float_parsing hwNone parseFloatDec false envOk reqBadNums
      (by decide) (by decide)).2 "0" "0" (by decide) (by decide)

/-- Claim C4: readFromES re-applies the spam filter to every hit: on a
successful backend query it returns (with no error) exactly the decoded
hits, and a post is in the result list if and only if it is a decoded
hit whose message the filter does not match — filtered hits are
silently dropped. -/
theorem search_refilters_hits (hasFiltered : String → Bool) (env : ESQueryEnv)
    (lat lon : ℚ) (ran : String) (items : List (Option Post))
    (hc : env.clientErr = none) (hs : env.searchOutcome = Except.ok items) :
    (readFromES hasFiltered env lat lon ran).1 =
      Except.ok (items.filterMap (keepHit hasFiltered)) ∧
    ∀ p : Post, p ∈ items.filterMap (keepHit hasFiltered) ↔
      (some p ∈ items ∧ hasFiltered p.message = false) := by
  refine ⟨?_, fun p => mem_filterMap_keepHit hasFiltered items p⟩
  simp [readFromES, hc, hs]

/-- Witness for C4: on a concrete result set with one clean, one
malformed and one spam hit, the clean post is kept and the spam post is
dropped. -/
theorem search_refilters_hits_witness :
    ((readFromES hwBuy esQmix 3 4 "200km").1 =
      Except.ok ([some okPost, none, some spamPost].filterMap (keepHit hwBuy))) ∧
    (okPost ∈ [some okPost, none, some spamPost].filterMap (keepHit hwBuy) ↔
      (some okPost ∈ [some okPost, none, some spamPost] ∧
        hwBuy okPost.message = false)) ∧
    (spamPost ∈ [some okPost, none, some spamPost].filterMap (keepHit hwBuy) ↔
      (some spamPost ∈ [some okPost, none, some spamPost] ∧
        hwBuy spamPost.message = false)) :=
  ⟨(search_refilters_hits hwBuy esQmix 3 4 "200km"
      [some okPost, none, some spamPost] rfl rfl).1,
   (search_refilters_hits hwBuy esQmix 3 4 "200km"
      [some okPost, none, some spamPost] rfl rfl).2 okPost,
   (search_refilters_hits hwBuy esQmix 3 4 "200km"
      [some okPost, none, some spamPost] rfl rfl).2 spamPost⟩

/-- Claim C5 (code bug): with the secondary store enabled, a failing
BigTable mirror write is not invisible to the caller.  saveToBigTable
executes panic(err) on failure (main.go lines 329-331; the return after
the panic is unreachable), so the panic escapes handlePost and the
caller-visible outcome differs from the success outcome, contradicting
the logged-and-never-propagated contract. -/
theorem bigtable_failure_changes_response :
    (handlePost hwNone parseFloatDec true envBtFail reqHello).1 =
      PostResponse.panicked "bigtable apply unavailable" ∧
    (handlePost hwNone parseFloatDec true envOk reqHello).1 = PostResponse.okEmpty ∧
    PostResponse.panicked "bigtable apply unavailable" ≠ PostResponse.okEmpty := by
  refine ⟨rfl, rfl, by decide⟩

/-- Claim C6: the radius string sent to the backend is the default
DISTANCE ("200km") when the range parameter is empty or absent, and
otherwise the caller value with "km" appended; so the executed geo
query carries that radius, and a caller value "0" yields the radius
string "0km" (zero kilometres). -/
theorem search_radius_default_and_unit (hasFiltered : String → Bool)
    (pf : String → Option ℚ) (env : ESQueryEnv) (r : SearchRequest)
    (hc : env.clientErr = none) :
    (handleSearch hasFiltered pf env r).2 =
      some { field := "location", distance := searchRange r.range,
             lat := (pf r.latStr).getD 0, lon := (pf r.lonStr).getD 0 } ∧
    (r.range = "" → searchRange r.range = "200km") ∧
    (r.range ≠ "" → searchRange r.range = r.range ++ "km") ∧
    searchRange "0" = "0km" := by
  refine ⟨?_, ?_, ?_, by decide⟩
  · cases hs : env.searchOutcome with
    | error e => simp [handleSearch, readFromES, hc, hs]
    | ok items => simp [handleSearch, readFromES, hc, hs]
  · intro h
    simp [searchRange, h, DISTANCE]
  · intro h
    simp [searchRange, h]

/-- Witness for C6: a concrete search with an empty range parameter
executes a query whose radius is the default, which is "200km". -/
theorem search_radius_default_and_unit_witness :
    (handleSearch hwNone parseFloatDec esQmix
        { latStr := "", lonStr := "", range := "" }).2 =
      some { field := "location", distance := searchRange "",
             lat := (parseFloatDec "").getD 0, lon := (parseFloatDec "").getD 0 } ∧
    searchRange "" = "200km" :=
  ⟨(search_radius_default_and_unit hwNone parseFloatDec esQmix
      { latStr := "", lonStr := "", range := "" } rfl).1,
   (search_radius_default_and_unit hwNone parseFloatDec esQmix
      { latStr := "", lonStr := "", range := "" } rfl).2.1 rfl⟩

/-- Claim C7: saveToGCS attempts its stages in the fixed source order
(client, bucket-existence check, full object write, writer close,
public-read ACL set, attributes fetch), never reordering, repeating or
adding a stage; a success ran every stage and returned the stored
object attributes (the stable reference URL); a missing bucket fails
immediately after the check with nothing written and no bucket
created. -/
theorem saveToGCS_stage_contract (env : GCSEnv) (file : ImageData)
    (bucketName objectName : String) :
    (∃ t, (saveToGCS env file bucketName objectName).2 ++ t = gcsCanonicalSteps) ∧
    (∀ a, (saveToGCS env file bucketName objectName).1 = Except.ok a →
        (saveToGCS env file bucketName objectName).2 = gcsCanonicalSteps ∧
        env.clientErr = none ∧ env.bucketAttrsErr = none ∧ env.copyErr = none ∧
        env.closeErr = none ∧ env.aclErr = none ∧ env.objectAttrs = Except.ok a) ∧
    (∀ e, env.clientErr = none → env.bucketAttrsErr = some e →
        (saveToGCS env file bucketName objectName).1 = Except.error e ∧
        (saveToGCS env file bucketName objectName).2 =
          [GCSStep.newClient, GCSStep.checkBucketAttrs]) :=
  ⟨saveToGCS_steps_ordered env file bucketName objectName,
   fun a h => saveToGCS_ok_all_stages env file bucketName objectName a h,
   fun e hc hb => saveToGCS_missing_bucket env file bucketName objectName e hc hb⟩

/-- Witness for C7: a fully successful concrete saveToGCS run performed
exactly the canonical stages and returned the stored attributes. -/
theorem saveToGCS_stage_contract_witness :
    (saveToGCS gcsOk [1] BUCKET_NAME "id-1").2 = gcsCanonicalSteps ∧
    gcsOk.clientErr = none ∧ gcsOk.bucketAttrsErr = none ∧ gcsOk.copyErr = none ∧
    gcsOk.closeErr = none ∧ gcsOk.aclErr = none ∧
    gcsOk.objectAttrs = Except.ok attrs0 :=
  (saveToGCS_stage_contract gcsOk [1] BUCKET_NAME "id-1").2.1 attrs0 rfl

/-- Counterexample to C8: a request whose coordinates parse to
(1000, 200) — far outside [-90,90] x [-180,180] — is accepted and the
out-of-range location is written to the index store unchanged. -/
theorem out_of_range_coordinates_stored :
    (handlePost hwNone parseFloatDec false envOk reqOutOfRange).1 =
      PostResponse.okEmpty ∧
    Event.callES "id-1" (mkPost parseFloatDec reqOutOfRange attrs0.mediaLink) ∈
      (handlePost hwNone parseFloatDec false envOk reqOutOfRange).2 ∧
    (mkPost parseFloatDec reqOutOfRange attrs0.mediaLink).location.lat = 1000 ∧
    ¬(mkPost parseFloatDec reqOutOfRange attrs0.mediaLink).location.lat ≤ 90 ∧
    (mkPost parseFloatDec reqOutOfRange attrs0.mediaLink).location.lon = 200 ∧
    ¬(mkPost parseFloatDec reqOutOfRange attrs0.mediaLink).location.lon ≤ 180 := by
  exact ⟨rfl, by decide, by decide, by decide, by decide, by decide⟩

/-- Amended C8: handlePost applies no range validation to the
coordinates — the location stored with any indexed post is exactly the
parsed (lat, lon) pair, so out-of-range inputs are stored with their
out-of-range coordinates unchanged. -/
theorem stored_location_is_parsed_location (hasFiltered : String → Bool)
    (pf : String → Option ℚ) (b : Bool) (env : PostEnv) (r : PostRequest) :
    ∀ id p, Event.callES id p ∈ (handlePost hasFiltered pf b env r).2 →
      p.location = { lat := (pf r.latStr).getD 0, lon := (pf r.lonStr).getD 0 } := by
  intro id p h
  obtain ⟨-, ⟨file, a, -, -, hp⟩, -⟩ :=
    callES_mem_structure hasFiltered pf b env r id p h
  subst hp
  rfl

/-- Witness for amended C8: the location indexed for a concrete request
is its parsed coordinate pair. -/
theorem stored_location_is_parsed_location_witness :
    (mkPost parseFloatDec reqHello attrs0.mediaLink).location =
      { lat := (parseFloatDec reqHello.latStr).getD 0,
        lon := (parseFloatDec reqHello.lonStr).getD 0 } :=
  stored_location_is_parsed_location hwNone parseFloatDec false envOk reqHello
    "id-1" (mkPost parseFloatDec reqHello attrs0.mediaLink) (by decide)

/-- Claim C9: one generated identifier links the stores — every
saveToGCS call in a handlePost trace stores under the configured bucket
and the fresh identifier, and every saveToES call uses that same fresh
identifier as document id, with the saveToGCS call present in the same
trace. -/
theorem single_id_links_asset_and_index (hasFiltered : String → Bool)
    (pf : String → Option ℚ) (b : Bool) (env : PostEnv) (r : PostRequest) :
    (∀ bucket object,
        Event.callGCS bucket object ∈ (handlePost hasFiltered pf b env r).2 →
        bucket = BUCKET_NAME ∧ object = env.freshId) ∧
    (∀ id p, Event.callES id p ∈ (handlePost hasFiltered pf b env r).2 →
        id = env.freshId ∧
        Event.callGCS BUCKET_NAME env.freshId ∈
          (handlePost hasFiltered pf b env r).2) := by
  constructor
  · intro bucket object h
    rcases trace_event_shapes hasFiltered pf b env r _ h with
      heq | ⟨file, a, hi, hg, heq | heq⟩
    · injection heq with h1 h2
      exact ⟨h1, h2⟩
    · exact Event.noConfusion heq
    · exact Event.noConfusion heq
  · intro id p h
    obtain ⟨hid, -, htake⟩ :=
      callES_mem_structure hasFiltered pf b env r id p h
    exact ⟨hid, (take_two_mem htake).1⟩

/-- Witness for C9: in a concrete successful ingestion the index write
uses the generated identifier and the trace contains the asset write on
the same identifier. -/
theorem single_id_links_asset_and_index_witness :
    "id-1" = envOk.freshId ∧
    Event.callGCS BUCKET_NAME envOk.freshId ∈
      (handlePost hwNone parseFloatDec false envOk reqHello).2 :=
  (single_id_links_asset_and_index hwNone parseFloatDec false envOk reqHello).2
    "id-1" (mkPost parseFloatDec reqHello attrs0.mediaLink) (by decide)

/-- Claim C10: a hit that does not deserialise into the Post shape is
silently omitted: a successful backend query never yields
QueryBackendFailure whatever the hits look like, and when every hit is
malformed or spam-filtered the result is the empty list with no
error. -/
theorem malformed_hits_silently_dropped (hasFiltered : String → Bool)
    (env : ESQueryEnv) (lat lon : ℚ) (ran : String) (items : List (Option Post))
    (hc : env.clientErr = none) (hs : env.searchOutcome = Except.ok items) :
    (∀ e : Err, (readFromES hasFiltered env lat lon ran).1 ≠ Except.error e) ∧
    ((∀ it ∈ items, ∀ p : Post, it = some p → hasFiltered p.message = true) →
        (readFromES hasFiltered env lat lon ran).1 = Except.ok []) := by
  constructor
  · intro e
    simp [readFromES, hc, hs]
  · intro hall
    have hnil : items.filterMap (keepHit hasFiltered) = [] := by
      apply filterMap_eq_nil_of_none
      intro it hit
      cases it with
      | none => rfl
      | some p =>
        have hmsg := hall (some p) hit p rfl
        simp [keepHit, hmsg]
    simp [readFromES, hc, hs, hnil]

/-- Witness for C10: a concrete result set consisting of one malformed
hit and one spam hit yields the empty list with no error. -/
theorem malformed_hits_silently_dropped_witness :
    (readFromES hwBuy esQbad 1 2 "200km").1 = Except.ok [] :=
  (malformed_hits_silently_dropped hwBuy esQbad 1 2 "200km" [none, some spamPost]
      rfl rfl).2 (by
    intro it hit p hp
    subst hp
    simp at hit
    subst hit
    decide)

end Circus
